import Mathlib

/-!
Verification of the Audion MCP server (`audion_mcp_server`): a shallow
embedding of `audion_client.py` and `server.py` together with theorems about
the response formatters, the subtitle writer and the error plumbing.

Modelling conventions:
* A Python `str` is modelled as `PyStr := List Char` (`strData` injects Lean
  string literals).  `str.lower` is modelled with `Char.toLower`, which agrees
  with Python on ASCII; every concrete input used below is ASCII or has no
  case mapping.
* A Python `float` is modelled as an exact rational (`ℚ`).  All float
  arithmetic reaching `_seconds_to_srt_time` is performed on exact rationals;
  the concrete values exercised below are exactly representable as binary
  floats, where the two notions agree.
* JSON values (`requests.Response.json()` output and the payload dictionaries
  built by the server) are modelled by `JValue`; a top-level JSON object /
  Python `Dict[str, Any]` is an association list `RDict`.
* Effects (HTTP transport, opening an input file, `mkdir`, `write_text`) are
  modelled by explicit `Except` parameters describing the outcome the
  environment would give, plus a counter of HTTP requests issued.
-/

/-- Python strings, as lists of characters. -/
abbrev PyStr := List Char

/-- The characters of a Lean string literal, used to write `PyStr` constants. -/
def strData (s : String) : PyStr := s.data

/-- Python `str.lower` (ASCII case mapping; non-ASCII characters are kept,
which agrees with Python on the cased-less characters used here). -/
def pyLower (s : PyStr) : PyStr := s.map Char.toLower

/-- The whitespace characters stripped by Python's `str.strip()` (ASCII part;
the inputs below contain no exotic Unicode whitespace). -/
def isPySpace (c : Char) : Bool :=
  c = ' ' || c = '\t' || c = '\n' || c = '\r' || c = '\x0b' || c = '\x0c'

/-- Python `str.strip()`: drop whitespace from both ends. -/
def pyStrip (s : PyStr) : PyStr :=
  ((s.dropWhile isPySpace).reverse.dropWhile isPySpace).reverse

/-- Python `needle in hay` on strings: substring containment. -/
def pySubstr (needle : PyStr) : PyStr → Bool
  | [] => needle.isPrefixOf []
  | c :: rest => needle.isPrefixOf (c :: rest) || pySubstr needle rest

/-- Scanner for Python `str.replace` with a non-empty pattern: scan left to
right, replacing non-overlapping occurrences.  The fuel argument is
initialised with the length of the scanned string, which the scan never
exceeds, so the `0`-fuel fallback is unreachable; it makes the recursion
structural so that concrete runs reduce inside the kernel. -/
def pyReplaceAux (old new : PyStr) : Nat → PyStr → PyStr
  | _, [] => []
  | 0, s => s
  | Nat.succ fuel, c :: rest =>
    if old.isPrefixOf (c :: rest) then
      new ++ pyReplaceAux old new fuel (rest.drop (old.length - 1))
    else
      c :: pyReplaceAux old new fuel rest

/-- Python `s.replace(old, new)` (all occurrences).  An empty pattern inserts
`new` before every character and once at the end, as Python does. -/
def pyReplace (s old new : PyStr) : PyStr :=
  if old.isEmpty then new ++ s.flatMap (fun c => c :: new)
  else pyReplaceAux old new s.length s

/-- Python `sep.join`-style concatenation with a separator between elements. -/
def joinSep (sep : PyStr) : List PyStr → PyStr
  | [] => []
  | [x] => x
  | x :: y :: rest => x ++ sep ++ joinSep sep (y :: rest)

/-- Python `s.split(sep)` for a one-character separator: split at every
occurrence, keeping empty pieces. -/
def splitOnChar (sep : Char) : PyStr → List PyStr
  | [] => [[]]
  | c :: rest =>
    let groups := splitOnChar sep rest
    if c = sep then [] :: groups
    else (c :: groups.headD []) :: groups.tail

/-- Decimal digits of `n`, via `Nat.repr`. -/
def natRepr (n : Nat) : PyStr := (Nat.repr n).data

/-- Python zero-padded integer formatting (format specs `02d` and `03d`): sign
followed by the magnitude zero-padded so that the whole field (sign included)
is at least `w` characters wide. -/
def pyPadZero (w : Nat) (n : ℤ) : PyStr :=
  let mag := natRepr n.natAbs
  let sign : PyStr := if n < 0 then ['-'] else []
  sign ++ List.replicate (w - sign.length - mag.length) '0' ++ mag

/-- The number of bytes a UTF-8 encoder (Python `write_text(...,
encoding='utf-8')`) emits for one character. -/
def utf8CharLen (c : Char) : Nat :=
  if c.toNat < 0x80 then 1
  else if c.toNat < 0x800 then 2
  else if c.toNat < 0x10000 then 3
  else 4

/-- The number of bytes written when `s` is persisted as UTF-8 text. -/
def utf8Len (s : PyStr) : Nat := (s.map utf8CharLen).sum

/-- Python float floor-division `s // m` followed by `int(...)`, for an exact
rational `s` and a positive integer constant `m`: `⌊s / m⌋` computed on the
numerator and denominator. -/
def ratFdiv (s : ℚ) (m : ℕ) : ℤ := s.num / ((s.den * m : ℕ) : ℤ)

/-- Python float modulus `s % m` for a positive integer constant `m`:
`s - m * ⌊s / m⌋`, computed on the numerator and denominator. -/
def ratModNat (s : ℚ) (m : ℕ) : ℚ :=
  mkRat (s.num - (m : ℤ) * ratFdiv s m * (s.den : ℤ)) s.den

/-- Python `int(q)`: truncation toward zero. -/
def ratTrunc (q : ℚ) : ℤ := Int.tdiv q.num (q.den : ℤ)

/-- `(s % 1) * 1000`, computed on the numerator and denominator. -/
def ratFracTimes1000 (s : ℚ) : ℚ :=
  mkRat ((s.num - ratFdiv s 1 * (s.den : ℤ)) * 1000) s.den

/-- `_seconds_to_srt_time`: convert seconds to the SRT time format
`HH:MM:SS,mmm` (truncation only, as the source does). -/
def secondsToSrtTime (seconds : ℚ) : PyStr :=
  let hours := ratFdiv seconds 3600
  let minutes := ratFdiv (ratModNat seconds 3600) 60
  let secs := ratTrunc (ratModNat seconds 60)
  let millisecs := ratTrunc (ratFracTimes1000 seconds)
  pyPadZero 2 hours ++ strData ":" ++ pyPadZero 2 minutes ++ strData ":" ++
    pyPadZero 2 secs ++ strData "," ++ pyPadZero 3 millisecs

example : secondsToSrtTime (mkRat 0 1) = strData "00:00:00,000" := by decide

example : secondsToSrtTime (mkRat 7323 2) = strData "01:01:01,500" := by decide

example : pyReplace (strData "The Cat sat") (strData "cat") (strData "X") = strData "The Cat sat" := by decide

example : pyReplace (strData "a cat cat") (strData "cat") (strData "**cat**") = strData "a **cat** **cat**" := by decide

example : pySubstr (strData "cat") (pyLower (strData "The Cat sat")) = true := by decide

example : pyStrip (strData "  ab \n") = strData "ab" := by decide

example : splitOnChar '/' (strData "a/b//c") = [strData "a", strData "b", strData "", strData "c"] := by decide

example : pyPadZero 2 5 = strData "05" := by decide

example : pyPadZero 3 (-1) = strData "-01" := by decide

example : utf8Len (strData "a안") = 4 := by decide

/-- JSON values as produced by `requests.Response.json()` and as stored in the
payload dictionaries the server builds.  Python's `int` / `float` distinction
is kept (`json.dumps` renders them differently); floats are exact rationals. -/
inductive JValue where
  | jnull : JValue
  | jbool : Bool → JValue
  | jint : ℤ → JValue
  | jfloat : ℚ → JValue
  | jstr : PyStr → JValue
  | jarr : List JValue → JValue
  | jobj : List (String × JValue) → JValue

/-- A top-level JSON object / Python `Dict[str, Any]`. -/
abbrev RDict := List (String × JValue)

/-- Python `key in d` for a dictionary. -/
def rdictHas (d : RDict) (k : String) : Bool := d.any (fun p => p.1 == k)

/-- Python `d[key]` for a dictionary (callers guard with `key in d`; a missing
key is mapped to `jnull` rather than Python's `KeyError`, which no guarded
access can reach). -/
def rdictGet (d : RDict) (k : String) : JValue :=
  ((d.find? (fun p => p.1 == k)).map Prod.snd).getD JValue.jnull

/-- Python `key in v` where `v` came out of a JSON object.  On a dictionary it
is key membership; the formatters only apply it under guards that make `v` a
dictionary in every response shape the upstream API documents, so non-objects
are modelled as having no keys. -/
def jHas (v : JValue) (k : String) : Bool :=
  match v with
  | JValue.jobj kvs => kvs.any (fun p => p.1 == k)
  | _ => false

/-- Python `v[key]` on a JSON object (guarded by `jHas` at every use). -/
def jIdx (v : JValue) (k : String) : JValue :=
  match v with
  | JValue.jobj kvs => ((kvs.find? (fun p => p.1 == k)).map Prod.snd).getD JValue.jnull
  | _ => JValue.jnull

/-- Python `v.get(key, default)` on a JSON object. -/
def jGetD (v : JValue) (k : String) (dflt : JValue) : JValue :=
  match v with
  | JValue.jobj kvs => ((kvs.find? (fun p => p.1 == k)).map Prod.snd).getD dflt
  | _ => dflt

/-- Iterating over a JSON array (`for utterance in ...`); every response shape
the upstream API documents stores a list under `utterances`. -/
def jArrElems (v : JValue) : List JValue :=
  match v with
  | JValue.jarr xs => xs
  | _ => []

/-- The string content of a JSON value, where the source expects a string
(`utterance.get("text", "")`, `result["srt_content"]`, ...). -/
def jStrVal (v : JValue) : PyStr :=
  match v with
  | JValue.jstr s => s
  | _ => []

/-- The numeric content of a JSON value, where the source feeds it to float
arithmetic (`utterance.get("start", 0)` passed to `_seconds_to_srt_time`). -/
def jNumVal (v : JValue) : ℚ :=
  match v with
  | JValue.jint n => mkRat n 1
  | JValue.jfloat q => q
  | _ => mkRat 0 1

/-- Decimal rendering of an exact rational float, matching Python `str(x)` /
`json.dumps` output for every float written as a short decimal literal (the
fuel bounds the number of fractional digits; 64 digits is beyond any exactly
rendered double used here). -/
def fracDigits : Nat → Nat → Nat → PyStr
  | 0, _, _ => []
  | _, 0, _ => []
  | Nat.succ fuel, num, den =>
    natRepr (num * 10 / den) ++ fracDigits fuel (num * 10 % den) den

/-- Python `str` of a float (`1.5` ↦ `"1.5"`, `3` ↦ `"3.0"`). -/
def pyFloatRepr (q : ℚ) : PyStr :=
  let sign : PyStr := if q.num < 0 then ['-'] else []
  let intPart := q.num.natAbs / q.den
  let fracNum := q.num.natAbs % q.den
  let frac := fracDigits 64 fracNum q.den
  sign ++ natRepr intPart ++ strData "." ++ (if frac.isEmpty then strData "0" else frac)

/-- Python `str(v)` for the JSON value interpolated into the HTML output
(the `start_time` placeholder of the paragraph element): `None` / booleans use
Python's `str` spellings; containers, which Python would print with element
reprs, are abbreviated, as no documented response stores a container under an
utterance's `start` key. -/
def jPyStr (v : JValue) : PyStr :=
  match v with
  | JValue.jnull => strData "None"
  | JValue.jbool true => strData "True"
  | JValue.jbool false => strData "False"
  | JValue.jint n => (toString n).data
  | JValue.jfloat q => pyFloatRepr q
  | JValue.jstr s => s
  | JValue.jarr _ => strData "[...]"
  | JValue.jobj _ => strData "\x7b...\x7d"

example : pyFloatRepr (mkRat 3 2) = strData "1.5" := by decide

example : pyFloatRepr (mkRat 0 1) = strData "0.0" := by decide

/-- A run of `n` spaces, for `json.dumps` indentation. -/
def spaces (n : Nat) : PyStr := List.replicate n ' '

/-- A lowercase hexadecimal digit. -/
def hexDigit (n : Nat) : Char :=
  if n < 10 then Char.ofNat (48 + n) else Char.ofNat (87 + n)

/-- `json.dumps` escaping of one character with `ensure_ascii=False`: quote,
backslash and control characters are escaped, everything else is kept. -/
def jsonEscapeChar (c : Char) : PyStr :=
  if c = '"' then strData "\\\""
  else if c = '\\' then strData "\\\\"
  else if c = '\n' then strData "\\n"
  else if c = '\t' then strData "\\t"
  else if c = '\r' then strData "\\r"
  else if c = '\x08' then strData "\\b"
  else if c = '\x0c' then strData "\\f"
  else if c.toNat < 0x20 then strData "\\u00" ++ [hexDigit (c.toNat / 16), hexDigit (c.toNat % 16)]
  else [c]

/-- A `json.dumps` string literal. -/
def jsonQuote (s : PyStr) : PyStr := ['"'] ++ s.flatMap jsonEscapeChar ++ ['"']

mutual

/-- `json.dumps(v, indent=2, ensure_ascii=False)` at indentation level `lvl`. -/
def jsonDumpsV (lvl : Nat) : JValue → PyStr
  | JValue.jnull => strData "null"
  | JValue.jbool true => strData "true"
  | JValue.jbool false => strData "false"
  | JValue.jint n => (toString n).data
  | JValue.jfloat q => pyFloatRepr q
  | JValue.jstr s => jsonQuote s
  | JValue.jarr [] => strData "[]"
  | JValue.jarr (x :: xs) =>
    strData "[\n" ++
      joinSep (strData ",\n") (jsonDumpsItems (lvl + 1) (x :: xs)) ++
      strData "\n" ++ spaces (lvl * 2) ++ strData "]"
  | JValue.jobj [] => strData "\x7b\x7d"
  | JValue.jobj (kv :: kvs) =>
    strData "\x7b\n" ++
      joinSep (strData ",\n") (jsonDumpsFields (lvl + 1) (kv :: kvs)) ++
      strData "\n" ++ spaces (lvl * 2) ++ strData "\x7d"

/-- The rendered, indented items of a `json.dumps` array body. -/
def jsonDumpsItems (lvl : Nat) : List JValue → List PyStr
  | [] => []
  | x :: xs => (spaces (lvl * 2) ++ jsonDumpsV lvl x) :: jsonDumpsItems lvl xs

/-- The rendered, indented `"key": value` lines of a `json.dumps` object. -/
def jsonDumpsFields (lvl : Nat) : List (String × JValue) → List PyStr
  | [] => []
  | kv :: kvs =>
    (spaces (lvl * 2) ++ jsonQuote kv.1.data ++ strData ": " ++ jsonDumpsV lvl kv.2) ::
      jsonDumpsFields lvl kvs

end

/-- `json.dumps(result, indent=2, ensure_ascii=False)` for a dictionary. -/
def jsonDumpsDict (d : RDict) : PyStr := jsonDumpsV 0 (JValue.jobj d)

/-- `AudionClient._is_url`: prefix test against the four recognised markers. -/
def isUrl (source : PyStr) : Bool :=
  (strData "http://").isPrefixOf source || (strData "https://").isPrefixOf source ||
    (strData "youtu.be").isPrefixOf source || (strData "www.youtube.com").isPrefixOf source

/-- The `input_type` the client computes from an input source. -/
def inputTypeOf (source : PyStr) : String :=
  if isUrl source then "url" else "file"

/-- `AudionClient._format_vu_response`. -/
def formatVuResponse (result : RDict) (format : String) : RDict :=
  if format = "json" then result
  else if format = "text" then
    let transcript : PyStr :=
      if rdictHas result "content" && jHas (rdictGet result "content") "output" then
        let output := jIdx (rdictGet result "content") "output"
        if jHas output "utterances" then
          (jArrElems (jIdx output "utterances")).foldl
            (fun acc u => acc ++ jStrVal (jGetD u "text" (JValue.jstr [])) ++ strData " ") []
        else []
      else []
    [("transcript", JValue.jstr (pyStrip transcript))]
  else if format = "srt" then
    let srtContent : PyStr :=
      if rdictHas result "content" && jHas (rdictGet result "content") "output" then
        let output := jIdx (rdictGet result "content") "output"
        if jHas output "utterances" then
          ((jArrElems (jIdx output "utterances")).enum).foldl
            (fun acc iu =>
              acc ++ natRepr (iu.1 + 1) ++ strData "\n" ++
                secondsToSrtTime (jNumVal (jGetD iu.2 "start" (JValue.jint 0))) ++
                strData " --> " ++
                secondsToSrtTime (jNumVal (jGetD iu.2 "end" (JValue.jint 0))) ++
                strData "\n" ++
                jStrVal (jGetD iu.2 "text" (JValue.jstr [])) ++ strData "\n\n") []
        else []
      else []
    [("srt_content", JValue.jstr (pyStrip srtContent))]
  else result

/-- One keyword pass of `_format_vh_response` for the `text` format: a
case-insensitive containment check gating a case-sensitive `str.replace`. -/
def hlStep (kw t : PyStr) : PyStr :=
  if pySubstr (pyLower kw) (pyLower t) then
    pyReplace t kw (strData "**" ++ kw ++ strData "**")
  else t

/-- One keyword pass of `_format_vh_response` for the `html` format. -/
def hlStepHtml (kw t : PyStr) : PyStr :=
  if pySubstr (pyLower kw) (pyLower t) then
    pyReplace t kw (strData "<mark class=\x27highlight\x27>" ++ kw ++ strData "</mark>")
  else t

/-- `AudionClient._format_vh_response`. -/
def formatVhResponse (result : RDict) (keywords : List PyStr) (format : String) : RDict :=
  if format = "json" then result
  else if format = "text" then
    let highlighted : PyStr :=
      if rdictHas result "content" && jHas (rdictGet result "content") "output" then
        let output := jIdx (rdictGet result "content") "output"
        if jHas output "utterances" then
          (jArrElems (jIdx output "utterances")).foldl
            (fun acc u =>
              acc ++ keywords.foldl (fun t kw => hlStep kw t)
                  (jStrVal (jGetD u "text" (JValue.jstr []))) ++ strData " ") []
        else []
      else []
    [("highlighted_text", JValue.jstr (pyStrip highlighted))]
  else if format = "html" then
    let inner : PyStr :=
      if rdictHas result "content" && jHas (rdictGet result "content") "output" then
        let output := jIdx (rdictGet result "content") "output"
        if jHas output "utterances" then
          (jArrElems (jIdx output "utterances")).foldl
            (fun acc u =>
              acc ++ strData "<p data-time=\x27" ++
                jPyStr (jGetD u "start" (JValue.jint 0)) ++ strData "\x27>" ++
                keywords.foldl (fun t kw => hlStepHtml kw t)
                  (jStrVal (jGetD u "text" (JValue.jstr []))) ++ strData "</p>") []
        else []
      else []
    [("html_content", JValue.jstr
      (strData "<div class=\x27transcript\x27>" ++ inner ++ strData "</div>"))]
  else result

/-- `AudionClient.flow`: the wrapped outcome together with the number of HTTP
POSTs issued.  `fileOpen` is the environment's outcome for `open(input, "rb")`
(only consulted for file inputs, where it precedes the POST); `transport` is
the combined outcome of the POST, the status-code check and `.json()`.  Every
exception is re-raised with the `Failed to call Audion API: ` prefix, as the
source's `except` clause does. -/
def flowRun (fileOpen : Except PyStr Unit) (transport : Except PyStr RDict)
    (inputType : String) : Except PyStr RDict × Nat :=
  if inputType = "file" then
    match fileOpen with
    | Except.error e => (Except.error (strData "Failed to call Audion API: " ++ e), 0)
    | Except.ok _ =>
      match transport with
      | Except.ok r => (Except.ok r, 1)
      | Except.error e => (Except.error (strData "Failed to call Audion API: " ++ e), 1)
  else if inputType = "url" then
    match transport with
    | Except.ok r => (Except.ok r, 1)
    | Except.error e => (Except.error (strData "Failed to call Audion API: " ++ e), 1)
  else
    (Except.error (strData "Failed to call Audion API: Unsupported input type: " ++
      inputType.data), 0)

/-- `AudionClient.process_voice_understanding` (the unused `language` argument
of the source is omitted): classify the source, call the flow, format. -/
def processVoiceUnderstanding (fileOpen : Except PyStr Unit)
    (transport : Except PyStr RDict) (inputSource : PyStr) (format : String) :
    Except PyStr RDict × Nat :=
  let r := flowRun fileOpen transport (inputTypeOf inputSource)
  match r.1 with
  | Except.ok result => (Except.ok (formatVuResponse result format), r.2)
  | Except.error e => (Except.error e, r.2)

/-- `AudionClient.process_voice_highlighting` (unused `language` omitted). -/
def processVoiceHighlighting (fileOpen : Except PyStr Unit)
    (transport : Except PyStr RDict) (inputSource : PyStr)
    (keywords : List PyStr) (format : String) : Except PyStr RDict × Nat :=
  let r := flowRun fileOpen transport (inputTypeOf inputSource)
  match r.1 with
  | Except.ok result => (Except.ok (formatVhResponse result keywords format), r.2)
  | Except.error e => (Except.error e, r.2)

/-- The components of a POSIX `pathlib` path: split on `/`, dropping empty
pieces and bare `.` components. -/
def pyPathParts (s : PyStr) : List PyStr :=
  (splitOnChar '/' s).filter (fun p => !(p.isEmpty || p == strData "."))

/-- `str(Path(s))` for a POSIX path: the normalised spelling pathlib stores
(leading `/` kept, duplicate slashes and `.` components dropped, `""`
becoming `"."`; the double-slash root special case is not used here). -/
def pyPathStr (s : PyStr) : PyStr :=
  let body := joinSep (strData "/") (pyPathParts s)
  if s.head? = some '/' then '/' :: body
  else if body.isEmpty then strData "." else body

/-- The index of the last `.` in a name, if any. -/
def lastDotIdx (name : PyStr) : Option Nat :=
  name.enum.foldl (fun acc p => if p.2 = '.' then some p.1 else acc) none

/-- `Path(s).stem`: the final path component without its last suffix.  A dot
counts as a suffix separator only strictly inside the name (pathlib's
`0 < i < len(name) - 1` rule). -/
def pyStem (s : PyStr) : PyStr :=
  let name := (pyPathParts s).getLastD []
  match lastDotIdx name with
  | some i => if 0 < i && i + 1 < name.length then name.take i else name
  | none => name

/-- `str(p.absolute())`: prefix the working directory unless `p` is already
absolute (`p` is a pathlib-normalised path string). -/
def pyAbsolute (cwd p : PyStr) : PyStr :=
  if p.head? = some '/' then p else cwd ++ strData "/" ++ p

/-- The default subtitle file name base `audion_subtitle_download` derives
when no output path is given: URL sources use the last path segment with the
query string and extension stripped (timestamp fallback when empty), file
sources use the path stem. -/
def defaultFilenameBase (nowStamp source : PyStr) : PyStr :=
  if (strData "http://").isPrefixOf source || (strData "https://").isPrefixOf source then
    let base :=
      ((splitOnChar '.'
        ((splitOnChar '?' ((splitOnChar '/' source).getLastD [])).headD [])).headD [])
    if base.isEmpty then strData "subtitle_" ++ nowStamp else base
  else pyStem source

/-- The output path `audion_subtitle_download` resolves (as the normalised
path string pathlib would print): `./subtitles/<base>.<format>` by default, or
the explicit output path. -/
def resolveSubtitlePath (nowStamp source : PyStr) (outputPath : Option PyStr)
    (format : String) : PyStr :=
  match outputPath with
  | none =>
    pyPathStr (strData "subtitles/" ++ defaultFilenameBase nowStamp source ++
      strData "." ++ format.data)
  | some p => pyPathStr p

/-- The content-selection block of `audion_subtitle_download`: pick the text
written to the subtitle file from the (already formatted) result. -/
def selectSubtitleContent (format : String) (result : RDict) : PyStr :=
  if format == "srt" && rdictHas result "srt_content" then
    jStrVal (rdictGet result "srt_content")
  else if format == "vtt" && rdictHas result "srt_content" then
    strData "WEBVTT\n\n" ++
      pyReplace (jStrVal (rdictGet result "srt_content")) (strData ",") (strData ".")
  else if format == "txt" && rdictHas result "transcript" then
    jStrVal (rdictGet result "transcript")
  else if rdictHas result "srt_content" then
    jStrVal (rdictGet result "srt_content")
  else
    jsonDumpsDict result

/-- The error payload `audion_vu_process` returns when the client raises. -/
def vuErrorPayload (source e : PyStr) : RDict :=
  [("status", JValue.jstr (strData "error")),
   ("message", JValue.jstr (strData "Failed to process voice understanding: " ++ e)),
   ("source", JValue.jstr source)]

/-- `server.audion_vu_process`: call the client, catch every exception into a
structured error payload (the embedding is a total function, so nothing can
propagate to the host). -/
def audionVuProcess (fileOpen : Except PyStr Unit) (transport : Except PyStr RDict)
    (source : PyStr) (format : String) : RDict :=
  match (processVoiceUnderstanding fileOpen transport source format).1 with
  | Except.ok r => r
  | Except.error e => vuErrorPayload source e

/-- The error payload `audion_vh_process` returns when the client raises. -/
def vhErrorPayload (source : PyStr) (keywords : List PyStr) (e : PyStr) : RDict :=
  [("status", JValue.jstr (strData "error")),
   ("message", JValue.jstr (strData "Failed to process voice highlighting: " ++ e)),
   ("source", JValue.jstr source),
   ("highlight_keywords", JValue.jarr (keywords.map JValue.jstr))]

/-- `server.audion_vh_process`. -/
def audionVhProcess (fileOpen : Except PyStr Unit) (transport : Except PyStr RDict)
    (source : PyStr) (keywords : List PyStr) (format : String) : RDict :=
  match (processVoiceHighlighting fileOpen transport source keywords format).1 with
  | Except.ok r => r
  | Except.error e => vhErrorPayload source keywords e

/-- The error payload `audion_subtitle_download` returns when anything in its
`try` block raises. -/
def subtitleErrorPayload (source e : PyStr) : RDict :=
  [("status", JValue.jstr (strData "error")),
   ("message", JValue.jstr (strData "Failed to generate subtitle file: " ++ e)),
   ("source", JValue.jstr source)]

/-- `server.audion_subtitle_download`: transcribe in the requested format,
resolve the output path (`mkdirO` is the environment's outcome for the
directory creation), select the content, write it (`writeO` the outcome of
`write_text`), and report.  Returns the response payload together with the
path/content pair actually persisted (`none` when nothing was written).  The
reported `size` is `len(subtitle_content)` and the reported path is
`str(output_path.absolute())`, as in the source. -/
def audionSubtitleDownload (cwd nowStamp : PyStr) (fileOpen : Except PyStr Unit)
    (transport : Except PyStr RDict) (mkdirO writeO : Except PyStr Unit)
    (source : PyStr) (outputPath : Option PyStr) (format : String) :
    RDict × Option (PyStr × PyStr) :=
  match (processVoiceUnderstanding fileOpen transport source format).1 with
  | Except.error e => (subtitleErrorPayload source e, none)
  | Except.ok result =>
    match mkdirO with
    | Except.error e => (subtitleErrorPayload source e, none)
    | Except.ok _ =>
      let path := resolveSubtitlePath nowStamp source outputPath format
      let content := selectSubtitleContent format result
      match writeO with
      | Except.error e => (subtitleErrorPayload source e, none)
      | Except.ok _ =>
        ([("status", JValue.jstr (strData "success")),
          ("message", JValue.jstr (strData "Subtitle file saved successfully")),
          ("output_path", JValue.jstr (pyAbsolute cwd path)),
          ("format", JValue.jstr format.data),
          ("size", JValue.jint (content.length : ℤ)),
          ("source", JValue.jstr source)], some (path, content))

example : pyStem (strData "www.youtube.com/watch?v=abc") = strData "watch?v=abc" := by decide

example : pyStem (strData "audio.mp3") = strData "audio" := by decide

example : defaultFilenameBase (strData "TS") (strData "https://example.com/video123.mp4?x=1") = strData "video123" := by decide

example : resolveSubtitlePath (strData "TS") (strData "youtu.be/abc") none "srt" = strData "subtitles/abc.srt" := by decide

example : jsonDumpsDict [("a", JValue.jint 1), ("b", JValue.jarr [JValue.jint 1, JValue.jobj []])] = strData "\x7b\n  \"a\": 1,\n  \"b\": [\n    1,\n    \x7b\x7d\n  ]\n\x7d" := by decide

/-- The utterance list a formatter iterates over: the value under
`content.output.utterances` when the guard chain admits it, empty otherwise. -/
def utterancesOf (result : RDict) : List JValue :=
  if rdictHas result "content" && jHas (rdictGet result "content") "output" then
    let output := jIdx (rdictGet result "content") "output"
    if jHas output "utterances" then jArrElems (jIdx output "utterances") else []
  else []

/-- An utterance's text, with the source's default. -/
def uttText (u : JValue) : PyStr := jStrVal (jGetD u "text" (JValue.jstr []))

/-- An utterance's start time, with the source's default. -/
def uttStart (u : JValue) : ℚ := jNumVal (jGetD u "start" (JValue.jint 0))

/-- An utterance's end time, with the source's default. -/
def uttEnd (u : JValue) : ℚ := jNumVal (jGetD u "end" (JValue.jint 0))

/-- The SRT blocks of a list of utterances: 1-based index, time range line,
utterance text. -/
def srtBlocks (us : List JValue) : List PyStr :=
  us.enum.map (fun iu =>
    natRepr (iu.1 + 1) ++ strData "\n" ++
      secondsToSrtTime (uttStart iu.2) ++ strData " --> " ++
      secondsToSrtTime (uttEnd iu.2) ++ strData "\n" ++ uttText iu.2)

theorem foldl_build {α : Type} (f : PyStr → α → PyStr) (g : α → PyStr)
    (hf : ∀ acc x, f acc x = acc ++ g x) :
    ∀ (l : List α) (a : PyStr), l.foldl f a = a ++ (l.map g).flatten := by
  intro l
  induction l with
  | nil => intro a; simp
  | cons x xs ih =>
    intro a
    simp only [List.foldl_cons, List.map_cons, List.flatten_cons]
    rw [hf, ih, List.append_assoc]

theorem join_map_sep_cons (sep : PyStr) :
    ∀ (x : PyStr) (xs : List PyStr),
      ((x :: xs).map (fun t => t ++ sep)).flatten = joinSep sep (x :: xs) ++ sep := by
  intro x xs
  induction xs generalizing x with
  | nil => simp [joinSep]
  | cons y ys ih =>
    have ih2 := ih y
    simp only [List.map_cons, List.flatten_cons] at ih2 ⊢
    rw [ih2]
    simp [joinSep, List.append_assoc]

theorem dropWhile_sat_append (p : Char → Bool) :
    ∀ (sp l : PyStr), (∀ c ∈ sp, p c = true) →
      List.dropWhile p (sp ++ l) = List.dropWhile p l := by
  intro sp
  induction sp with
  | nil => intro l _; rfl
  | cons c cs ih =>
    intro l h
    have hc : p c = true := h c (List.mem_cons_self c cs)
    simp only [List.cons_append, List.dropWhile, hc]
    exact ih l (fun d hd => h d (List.mem_cons_of_mem c hd))

theorem dropWhile_append_of_ne_nil (p : Char → Bool) :
    ∀ (s sp : PyStr), List.dropWhile p s ≠ [] →
      List.dropWhile p (s ++ sp) = List.dropWhile p s ++ sp := by
  intro s
  induction s with
  | nil => intro sp h; exact absurd rfl h
  | cons a s' ih =>
    intro sp h
    by_cases ha : p a = true
    · simp only [List.cons_append, List.dropWhile, ha] at h ⊢
      exact ih sp h
    · have ha' : p a = false := by
        cases hpa : p a
        · rfl
        · exact absurd hpa ha
      simp only [List.cons_append, List.dropWhile, ha']
      rfl

theorem pyStrip_append_ws (s sp : PyStr) (h : ∀ c ∈ sp, isPySpace c = true) :
    pyStrip (s ++ sp) = pyStrip s := by
  unfold pyStrip
  by_cases hs : List.dropWhile isPySpace s = []
  · have hall : ∀ c ∈ s, isPySpace c = true := by
      intro c hc
      exact List.dropWhile_eq_nil_iff.mp hs c hc
    have h1 : List.dropWhile isPySpace (s ++ sp) = [] := by
      rw [dropWhile_sat_append isPySpace s sp hall]
      exact List.dropWhile_eq_nil_iff.mpr h
    rw [h1, hs]
  · rw [dropWhile_append_of_ne_nil isPySpace s sp hs]
    rw [List.reverse_append]
    rw [dropWhile_sat_append isPySpace sp.reverse (List.dropWhile isPySpace s).reverse
      (fun c hc => h c (List.mem_reverse.mp hc))]

theorem pyStrip_join_sep (sep : PyStr) (hsep : ∀ c ∈ sep, isPySpace c = true) :
    ∀ (l : List PyStr),
      pyStrip ((l.map (fun x => x ++ sep)).flatten) = pyStrip (joinSep sep l) := by
  intro l
  cases l with
  | nil => rfl
  | cons x xs =>
    rw [join_map_sep_cons sep x xs, pyStrip_append_ws _ sep hsep]

theorem pyStrip_flatten_sep {α : Type} (g : α → PyStr) (sep : PyStr)
    (hsep : ∀ c ∈ sep, isPySpace c = true) (l : List α) :
    pyStrip ((l.map (fun x => g x ++ sep)).flatten) = pyStrip (joinSep sep (l.map g)) := by
  rw [show (fun x => g x ++ sep) = ((fun t => t ++ sep) ∘ g) from rfl, ← List.map_map,
    pyStrip_join_sep sep hsep]

theorem vuText_eq (result : RDict) :
    formatVuResponse result "text" =
      [("transcript", JValue.jstr
        (pyStrip (joinSep (strData " ") ((utterancesOf result).map uttText))))] := by
  have hsep : ∀ c ∈ strData " ", isPySpace c = true := by decide
  unfold formatVuResponse utterancesOf
  rw [if_neg (by decide : ¬ ("text" : String) = "json"), if_pos rfl]
  by_cases h1 : (rdictHas result "content" && jHas (rdictGet result "content") "output") = true
  · rw [if_pos h1, if_pos h1]
    by_cases h2 : jHas (jIdx (rdictGet result "content") "output") "utterances" = true
    · rw [if_pos h2, if_pos h2]
      rw [foldl_build _ (fun u => uttText u ++ strData " ")
        (fun acc x => by simp [uttText, List.append_assoc])]
      simp only [List.nil_append, pyStrip_flatten_sep uttText (strData " ") hsep]
    · rw [if_neg h2, if_neg h2]
      rfl
  · rw [if_neg h1, if_neg h1]
    rfl

theorem vuSrt_eq (result : RDict) :
    formatVuResponse result "srt" =
      [("srt_content", JValue.jstr
        (pyStrip (joinSep (strData "\n\n") (srtBlocks (utterancesOf result)))))] := by
  have hsep : ∀ c ∈ strData "\n\n", isPySpace c = true := by decide
  unfold formatVuResponse utterancesOf srtBlocks
  rw [if_neg (by decide : ¬ ("srt" : String) = "json"),
    if_neg (by decide : ¬ ("srt" : String) = "text"), if_pos rfl]
  by_cases h1 : (rdictHas result "content" && jHas (rdictGet result "content") "output") = true
  · rw [if_pos h1, if_pos h1]
    by_cases h2 : jHas (jIdx (rdictGet result "content") "output") "utterances" = true
    · rw [if_pos h2, if_pos h2]
      rw [foldl_build _
        (fun iu : Nat × JValue => (natRepr (iu.1 + 1) ++ strData "\n" ++
          secondsToSrtTime (uttStart iu.2) ++ strData " --> " ++
          secondsToSrtTime (uttEnd iu.2) ++ strData "\n" ++ uttText iu.2) ++ strData "\n\n")
        (fun acc x => by simp [uttText, uttStart, uttEnd, List.append_assoc])]
      simp only [List.nil_append,
        pyStrip_flatten_sep (fun iu : Nat × JValue =>
          natRepr (iu.1 + 1) ++ strData "\n" ++
            secondsToSrtTime (uttStart iu.2) ++ strData " --> " ++
            secondsToSrtTime (uttEnd iu.2) ++ strData "\n" ++ uttText iu.2)
          (strData "\n\n") hsep]
    · rw [if_neg h2, if_neg h2]
      rfl
  · rw [if_neg h1, if_neg h1]
    rfl

/-- C5: for every transcription result, the `srt` output is exactly the
1-based-indexed blocks (index line, `start --> end` time range line rendered
by `secondsToSrtTime`, text line) of the utterances in original order, joined
by blank lines, with the final output stripped of surrounding whitespace; the
number of blocks equals the number of utterances. -/
theorem c5_srt_block_structure (result : RDict) :
    formatVuResponse result "srt" =
      [("srt_content", JValue.jstr
        (pyStrip (joinSep (strData "\n\n") (srtBlocks (utterancesOf result)))))] ∧
    (srtBlocks (utterancesOf result)).length = (utterancesOf result).length := by
  refine ⟨vuSrt_eq result, ?_⟩
  unfold srtBlocks
  rw [List.length_map, List.enum_length]

/-- C6: for every transcription result, the `text` output is the utterance
texts joined by single spaces and stripped of leading/trailing whitespace, and
it is the empty string when there are no utterances. -/
theorem c6_text_format_join (result : RDict) :
    formatVuResponse result "text" =
      [("transcript", JValue.jstr
        (pyStrip (joinSep (strData " ") ((utterancesOf result).map uttText))))] ∧
    (utterancesOf result = [] →
      formatVuResponse result "text" = [("transcript", JValue.jstr [])]) := by
  refine ⟨vuText_eq result, fun h => ?_⟩
  rw [vuText_eq result, h]
  rfl

/-- Witness for C6 at a concrete utterance-free result. -/
theorem c6_text_format_join_witness :
    utterancesOf [("status", JValue.jstr (strData "ok"))] = [] ∧
    formatVuResponse [("status", JValue.jstr (strData "ok"))] "text" =
      [("transcript", JValue.jstr [])] :=
  ⟨rfl, (c6_text_format_join [("status", JValue.jstr (strData "ok"))]).2 rfl⟩

theorem pySubstr_iff (n : PyStr) : ∀ (h : PyStr), pySubstr n h = true ↔ n <:+: h := by
  intro h
  induction h with
  | nil =>
    simp [pySubstr, List.isPrefixOf_iff_prefix]
  | cons c rest ih =>
    simp only [pySubstr, Bool.or_eq_true, List.isPrefixOf_iff_prefix, ih]
    exact (List.infix_cons_iff).symm

theorem pyReplaceAux_no_occ (old new : PyStr) :
    ∀ (s : PyStr) (fuel : Nat), ¬ old <:+: s → pyReplaceAux old new fuel s = s := by
  intro s
  induction s with
  | nil => intro fuel _; cases fuel <;> rfl
  | cons c rest ih =>
    intro fuel h
    cases fuel with
    | zero => rfl
    | succ f =>
      have hpre : ¬ (old.isPrefixOf (c :: rest) = true) := fun hp =>
        h ( List.isPrefixOf_iff_prefix.mp hp).isInfix
      simp only [pyReplaceAux, if_neg hpre]
      rw [ih f (fun hi => h (hi.trans (List.suffix_cons c rest).isInfix))]

theorem pyReplace_no_occ (s old new : PyStr) (h : ¬ old <:+: s) :
    pyReplace s old new = s := by
  have hne : old ≠ [] := by
    rintro rfl
    exact h List.nil_infix
  unfold pyReplace
  rw [if_neg (fun he => hne (List.isEmpty_iff.mp he))]
  exact pyReplaceAux_no_occ old new s s.length h

theorem hlStep_eq (kw t : PyStr) :
    hlStep kw t = pyReplace t kw (strData "**" ++ kw ++ strData "**") := by
  unfold hlStep
  by_cases hg : pySubstr (pyLower kw) (pyLower t) = true
  · rw [if_pos hg]
  · rw [if_neg hg]
    have hni : ¬ kw <:+: t := fun hi => hg ((pySubstr_iff _ _).mpr (hi.map Char.toLower))
    exact (pyReplace_no_occ t kw _ hni).symm

theorem hlStepHtml_eq (kw t : PyStr) :
    hlStepHtml kw t =
      pyReplace t kw (strData "<mark class=\x27highlight\x27>" ++ kw ++ strData "</mark>") := by
  unfold hlStepHtml
  by_cases hg : pySubstr (pyLower kw) (pyLower t) = true
  · rw [if_pos hg]
  · rw [if_neg hg]
    have hni : ¬ kw <:+: t := fun hi => hg ((pySubstr_iff _ _).mpr (hi.map Char.toLower))
    exact (pyReplace_no_occ t kw _ hni).symm

/-- The `text` highlighting of one utterance as the amended claim states it: a
fold of plain case-sensitive replace-alls over the keywords in the given
order, each pass operating on the already-modified text. -/
def hlAllText (keywords : List PyStr) (t : PyStr) : PyStr :=
  keywords.foldl (fun t kw => pyReplace t kw (strData "**" ++ kw ++ strData "**")) t

/-- The `html` highlighting of one utterance, with the highlight mark element. -/
def hlAllHtml (keywords : List PyStr) (t : PyStr) : PyStr :=
  keywords.foldl (fun t kw =>
    pyReplace t kw (strData "<mark class=\x27highlight\x27>" ++ kw ++ strData "</mark>")) t

theorem foldl_hlStep_eq (keywords : List PyStr) :
    ∀ t, keywords.foldl (fun t kw => hlStep kw t) t = hlAllText keywords t := by
  intro t
  simp only [hlAllText, hlStep_eq]

theorem foldl_hlStepHtml_eq (keywords : List PyStr) :
    ∀ t, keywords.foldl (fun t kw => hlStepHtml kw t) t = hlAllHtml keywords t := by
  intro t
  simp only [hlAllHtml, hlStepHtml_eq]

theorem vhText_eq (result : RDict) (keywords : List PyStr) :
    formatVhResponse result keywords "text" =
      [("highlighted_text", JValue.jstr
        (pyStrip (joinSep (strData " ")
          ((utterancesOf result).map (fun u => hlAllText keywords (uttText u))))))] := by
  have hsep : ∀ c ∈ strData " ", isPySpace c = true := by decide
  unfold formatVhResponse utterancesOf
  rw [if_neg (by decide : ¬ ("text" : String) = "json"), if_pos rfl]
  by_cases h1 : (rdictHas result "content" && jHas (rdictGet result "content") "output") = true
  · rw [if_pos h1, if_pos h1]
    by_cases h2 : jHas (jIdx (rdictGet result "content") "output") "utterances" = true
    · rw [if_pos h2, if_pos h2]
      rw [foldl_build _ (fun u => hlAllText keywords (uttText u) ++ strData " ")
        (fun acc x => by
          simp only [foldl_hlStep_eq, uttText, List.append_assoc])]
      simp only [List.nil_append,
        pyStrip_flatten_sep (fun u => hlAllText keywords (uttText u)) (strData " ") hsep]
    · rw [if_neg h2, if_neg h2]
      rfl
  · rw [if_neg h1, if_neg h1]
    rfl

theorem vhHtml_eq (result : RDict) (keywords : List PyStr) :
    formatVhResponse result keywords "html" =
      [("html_content", JValue.jstr
        (strData "<div class=\x27transcript\x27>" ++
          ((utterancesOf result).map (fun u =>
            strData "<p data-time=\x27" ++ jPyStr (jGetD u "start" (JValue.jint 0)) ++
              strData "\x27>" ++ hlAllHtml keywords (uttText u) ++ strData "</p>")).flatten ++
          strData "</div>"))] := by
  unfold formatVhResponse utterancesOf
  rw [if_neg (by decide : ¬ ("html" : String) = "json"),
    if_neg (by decide : ¬ ("html" : String) = "text"), if_pos rfl]
  by_cases h1 : (rdictHas result "content" && jHas (rdictGet result "content") "output") = true
  · rw [if_pos h1, if_pos h1]
    by_cases h2 : jHas (jIdx (rdictGet result "content") "output") "utterances" = true
    · rw [if_pos h2, if_pos h2]
      rw [foldl_build _ (fun u =>
          strData "<p data-time=\x27" ++ jPyStr (jGetD u "start" (JValue.jint 0)) ++
            strData "\x27>" ++ hlAllHtml keywords (uttText u) ++ strData "</p>")
        (fun acc x => by
          simp only [foldl_hlStepHtml_eq, uttText, List.append_assoc])]
      rfl
    · rw [if_neg h2, if_neg h2]
      rfl
  · rw [if_neg h1, if_neg h1]
    rfl

/-- C2 (amended): the highlight formatters do not wrap case-insensitive
occurrences.  Each keyword pass is exactly a case-sensitive replace-all of the
keyword by its wrapped form (the case-insensitive containment check only gates
a pass that would otherwise be the identity, so it is semantically redundant),
applied to the keywords in the given order with each later pass operating on
the already-modified text; consequently the `text` and `html` outputs wrap
only exact-case occurrences, and a keyword whose letter case differs from its
occurrence in the utterance text is matched by the containment check but left
unwrapped. -/
theorem c2_highlight_case_sensitive_replace (result : RDict) (keywords : List PyStr) :
    (∀ kw t, hlStep kw t = pyReplace t kw (strData "**" ++ kw ++ strData "**")) ∧
    (∀ kw t, hlStepHtml kw t =
      pyReplace t kw (strData "<mark class=\x27highlight\x27>" ++ kw ++ strData "</mark>")) ∧
    formatVhResponse result keywords "text" =
      [("highlighted_text", JValue.jstr
        (pyStrip (joinSep (strData " ")
          ((utterancesOf result).map (fun u => hlAllText keywords (uttText u))))))] ∧
    formatVhResponse result keywords "html" =
      [("html_content", JValue.jstr
        (strData "<div class=\x27transcript\x27>" ++
          ((utterancesOf result).map (fun u =>
            strData "<p data-time=\x27" ++ jPyStr (jGetD u "start" (JValue.jint 0)) ++
              strData "\x27>" ++ hlAllHtml keywords (uttText u) ++ strData "</p>")).flatten ++
          strData "</div>"))] :=
  ⟨hlStep_eq, hlStepHtml_eq, vhText_eq result keywords, vhHtml_eq result keywords⟩

/-- A transcription result with one utterance whose text contains the keyword
`cat` only with a different letter case. -/
def demoVhResult : RDict :=
  [("content", JValue.jobj [("output", JValue.jobj [("utterances", JValue.jarr
    [JValue.jobj [("text", JValue.jstr (strData "The Cat sat")),
                  ("start", JValue.jint 0), ("end", JValue.jint 1)]])])])]

/-- C2 (counterexample): for keyword `cat` and utterance text `The Cat sat`,
the keyword occurs case-insensitively (the containment check fires), yet the
`text` output is returned without any bold markers — the case-differing
occurrence is not wrapped, contradicting the claim. -/
theorem c2_case_differing_occurrence_not_wrapped :
    formatVhResponse demoVhResult [strData "cat"] "text" =
      [("highlighted_text", JValue.jstr (strData "The Cat sat"))] ∧
    pySubstr (pyLower (strData "cat")) (pyLower (strData "The Cat sat")) = true ∧
    pySubstr (strData "**") (strData "The Cat sat") = false :=
  ⟨rfl, by decide, by decide⟩

/-- The value under `content`, when present, is an object, and its `output`,
when present, is an object: the shapes on which the `in` checks of the
formatters coincide with Python dictionary-membership. -/
def contentWellTyped (result : RDict) : Bool :=
  !(rdictHas result "content") ||
    (match rdictGet result "content" with
     | JValue.jobj kvs =>
       !(jHas (JValue.jobj kvs) "output") ||
         (match jIdx (JValue.jobj kvs) "output" with
          | JValue.jobj _ => true
          | _ => false)
     | _ => false)

/-- The guard chain of the formatters: `content` present, `output` present in
it, `utterances` present in that. -/
def hasUtterancesPath (result : RDict) : Bool :=
  rdictHas result "content" && jHas (rdictGet result "content") "output" &&
    jHas (jIdx (rdictGet result "content") "output") "utterances"

theorem utterancesOf_eq_nil_of_no_path (result : RDict)
    (h : hasUtterancesPath result = false) : utterancesOf result = [] := by
  unfold hasUtterancesPath at h
  unfold utterancesOf
  by_cases h1 : (rdictHas result "content" && jHas (rdictGet result "content") "output") = true
  · rw [if_pos h1]
    rw [h1, Bool.true_and] at h
    rw [if_neg (by rw [h]; exact Bool.false_ne_true)]
  · rw [if_neg h1]

/-- A transcription result whose single utterance carries none of the `text`,
`start`, `end` fields. -/
def demoNoFieldsResult : RDict :=
  [("content", JValue.jobj [("output", JValue.jobj [("utterances", JValue.jarr
    [JValue.jobj []])])])]

/-- C9: the formatters are total on missing nested data.  When the
`content.output.utterances` path is partially or wholly absent (on result
shapes where the membership tests are dictionary lookups, as in every
documented response), every content-bearing output format degrades to the
empty string / empty container; and an utterance lacking `text`, `start` or
`end` contributes the defaults `""` and `0`, as the concrete instances show. -/
theorem c9_missing_nested_data_graceful :
    (∀ (result : RDict) (keywords : List PyStr),
      contentWellTyped result = true → hasUtterancesPath result = false →
        formatVuResponse result "text" = [("transcript", JValue.jstr [])] ∧
        formatVuResponse result "srt" = [("srt_content", JValue.jstr [])] ∧
        formatVhResponse result keywords "text" = [("highlighted_text", JValue.jstr [])] ∧
        formatVhResponse result keywords "html" =
          [("html_content", JValue.jstr (strData "<div class=\x27transcript\x27></div>"))]) ∧
    (formatVuResponse demoNoFieldsResult "text" = [("transcript", JValue.jstr [])] ∧
     formatVuResponse demoNoFieldsResult "srt" =
       [("srt_content", JValue.jstr (strData "1\n00:00:00,000 --> 00:00:00,000"))] ∧
     formatVhResponse demoNoFieldsResult [strData "k"] "html" =
       [("html_content", JValue.jstr
         (strData "<div class=\x27transcript\x27><p data-time=\x270\x27></p></div>"))]) := by
  refine ⟨fun result keywords _ hpath => ?_, rfl, rfl, rfl⟩
  have hnil := utterancesOf_eq_nil_of_no_path result hpath
  refine ⟨?_, ?_, ?_, ?_⟩
  · rw [vuText_eq result, hnil]; rfl
  · rw [vuSrt_eq result, hnil]; rfl
  · rw [vhText_eq result keywords, hnil]; rfl
  · rw [vhHtml_eq result keywords, hnil]; rfl

/-- Witness for C9 at a result whose `content` object lacks `output`. -/
theorem c9_missing_nested_data_graceful_witness :
    contentWellTyped [("content", JValue.jobj [])] = true ∧
    hasUtterancesPath [("content", JValue.jobj [])] = false ∧
    formatVuResponse [("content", JValue.jobj [])] "text" =
      [("transcript", JValue.jstr [])] ∧
    formatVhResponse [("content", JValue.jobj [])] [strData "k"] "html" =
      [("html_content", JValue.jstr (strData "<div class=\x27transcript\x27></div>"))] :=
  ⟨by decide, by decide,
    (c9_missing_nested_data_graceful.1 [("content", JValue.jobj [])] [strData "k"]
      (by decide) (by decide)).1,
    (c9_missing_nested_data_graceful.1 [("content", JValue.jobj [])] [strData "k"]
      (by decide) (by decide)).2.2.2⟩

theorem rat_num_eq_self_mul_den (s : ℚ) : (s.num : ℚ) = s * (s.den : ℚ) := by
  have hd : ((s.den : ℚ)) ≠ 0 := Nat.cast_ne_zero.mpr s.den_nz
  exact (div_eq_iff hd).mp (Rat.num_div_den s)

theorem ratFdiv_eq_floor (s : ℚ) (m : ℕ) :
    ratFdiv s m = ⌊s / (m : ℚ)⌋ := by
  have h1 : s / (m : ℚ) = ((s.num : ℤ) : ℚ) / ((s.den * m : ℕ) : ℚ) := by
    push_cast
    rw [← div_div, Rat.num_div_den]
  rw [h1, Rat.floor_intCast_div_natCast]
  rfl

theorem ratModNat_val (s : ℚ) (m : ℕ) :
    (ratModNat s m : ℚ) = s - (m : ℚ) * ⌊s / (m : ℚ)⌋ := by
  unfold ratModNat
  rw [Rat.mkRat_eq_div, ratFdiv_eq_floor s m]
  have hd : ((s.den : ℚ)) ≠ 0 := Nat.cast_ne_zero.mpr s.den_nz
  rw [div_eq_iff hd]
  push_cast
  rw [sub_mul, ← rat_num_eq_self_mul_den]

theorem ratTrunc_eq_floor_of_nonneg (q : ℚ) (h : 0 ≤ q) : ratTrunc q = ⌊q⌋ := by
  unfold ratTrunc
  rw [Int.tdiv_eq_ediv (Rat.num_nonneg.mpr h) (Int.natCast_nonneg q.den)]
  exact Rat.floor_def.symm

theorem rat_mod_nonneg (s : ℚ) (m : ℕ) (hm : 0 < m) :
    0 ≤ s - (m : ℚ) * ⌊s / (m : ℚ)⌋ := by
  have hm2 : (0 : ℚ) < m := by exact_mod_cast hm
  have h1 : ((⌊s / (m : ℚ)⌋ : ℤ) : ℚ) ≤ s / m := Int.floor_le _
  have h2 : (m : ℚ) * ((⌊s / (m : ℚ)⌋ : ℤ) : ℚ) ≤ (m : ℚ) * (s / m) :=
    mul_le_mul_of_nonneg_left h1 (le_of_lt hm2)
  rw [mul_comm (m : ℚ) (s / m), div_mul_cancel₀ s (ne_of_gt hm2)] at h2
  linarith

theorem ratFracTimes1000_val (s : ℚ) :
    (ratFracTimes1000 s : ℚ) = (s - ((⌊s⌋ : ℤ) : ℚ)) * 1000 := by
  unfold ratFracTimes1000
  rw [Rat.mkRat_eq_div]
  have hfd : ratFdiv s 1 = ⌊s⌋ := by
    rw [ratFdiv_eq_floor s 1]
    norm_num
  rw [hfd]
  have hd : ((s.den : ℚ)) ≠ 0 := Nat.cast_ne_zero.mpr s.den_nz
  rw [div_eq_iff hd]
  push_cast
  rw [rat_num_eq_self_mul_den]
  ring

/-- C7: for every non-negative seconds value (floats modelled as exact
rationals), `secondsToSrtTime` decomposes by truncation only into
hours `⌊s/3600⌋`, minutes `⌊(s mod 3600)/60⌋`, whole seconds `⌊s mod 60⌋` and
milliseconds `⌊(fractional part) * 1000⌋` (the modulus spelt out as
`s - m*⌊s/m⌋`), each zero-padded and joined as `HH:MM:SS,mmm`; in particular
`secondsToSrtTime 0 = "00:00:00,000"` and
`secondsToSrtTime 3661.5 = "01:01:01,500"`. -/
theorem c7_seconds_to_timecode :
    (∀ s : ℚ, 0 ≤ s →
      secondsToSrtTime s =
        pyPadZero 2 ⌊s / 3600⌋ ++ strData ":" ++
        pyPadZero 2 ⌊(s - 3600 * ((⌊s / 3600⌋ : ℤ) : ℚ)) / 60⌋ ++ strData ":" ++
        pyPadZero 2 ⌊s - 60 * ((⌊s / 60⌋ : ℤ) : ℚ)⌋ ++ strData "," ++
        pyPadZero 3 ⌊(s - ((⌊s⌋ : ℤ) : ℚ)) * 1000⌋) ∧
    secondsToSrtTime 0 = strData "00:00:00,000" ∧
    (3661.5 : ℚ) = mkRat 7323 2 ∧
    secondsToSrtTime (mkRat 7323 2) = strData "01:01:01,500" := by
  refine ⟨fun s _ => ?_, by decide, by rw [Rat.mkRat_eq_div]; norm_num, by decide⟩
  have hcast3600 : ((3600 : ℕ) : ℚ) = (3600 : ℚ) := by norm_num
  have hcast60 : ((60 : ℕ) : ℚ) = (60 : ℚ) := by norm_num
  have hh : ratFdiv s 3600 = ⌊s / 3600⌋ := by
    rw [ratFdiv_eq_floor s 3600, hcast3600]
  have hmod3600 : (ratModNat s 3600 : ℚ) = s - 3600 * ((⌊s / 3600⌋ : ℤ) : ℚ) := by
    rw [ratModNat_val s 3600, hcast3600]
  have hmod60 : (ratModNat s 60 : ℚ) = s - 60 * ((⌊s / 60⌋ : ℤ) : ℚ) := by
    rw [ratModNat_val s 60, hcast60]
  have hmin : ratFdiv (ratModNat s 3600) 60 =
      ⌊(s - 3600 * ((⌊s / 3600⌋ : ℤ) : ℚ)) / 60⌋ := by
    rw [ratFdiv_eq_floor (ratModNat s 3600) 60, hcast60, hmod3600]
  have hsec : ratTrunc (ratModNat s 60) = ⌊s - 60 * ((⌊s / 60⌋ : ℤ) : ℚ)⌋ := by
    rw [ratTrunc_eq_floor_of_nonneg _ (by
      rw [hmod60]
      have := rat_mod_nonneg s 60 (by norm_num)
      rwa [hcast60] at this), hmod60]
  have hms : ratTrunc (ratFracTimes1000 s) = ⌊(s - ((⌊s⌋ : ℤ) : ℚ)) * 1000⌋ := by
    rw [ratTrunc_eq_floor_of_nonneg _ (by
      rw [ratFracTimes1000_val s]
      have h1 : (0 : ℚ) ≤ s - ((⌊s⌋ : ℤ) : ℚ) := by
        have := Int.fract_nonneg s
        rwa [Int.fract] at this
      exact mul_nonneg h1 (by norm_num)), ratFracTimes1000_val s]
  show pyPadZero 2 (ratFdiv s 3600) ++ strData ":" ++
      pyPadZero 2 (ratFdiv (ratModNat s 3600) 60) ++ strData ":" ++
      pyPadZero 2 (ratTrunc (ratModNat s 60)) ++ strData "," ++
      pyPadZero 3 (ratTrunc (ratFracTimes1000 s)) = _
  rw [hh, hmin, hsec, hms]

/-- Witness for C7 at `3661.5` seconds. -/
theorem c7_seconds_to_timecode_witness :
    (0 : ℚ) ≤ mkRat 7323 2 ∧
    secondsToSrtTime (mkRat 7323 2) =
      pyPadZero 2 ⌊(mkRat 7323 2 : ℚ) / 3600⌋ ++ strData ":" ++
      pyPadZero 2 ⌊((mkRat 7323 2 : ℚ) - 3600 * ((⌊(mkRat 7323 2 : ℚ) / 3600⌋ : ℤ) : ℚ)) / 60⌋ ++
      strData ":" ++
      pyPadZero 2 ⌊(mkRat 7323 2 : ℚ) - 60 * ((⌊(mkRat 7323 2 : ℚ) / 60⌋ : ℤ) : ℚ)⌋ ++
      strData "," ++
      pyPadZero 3 ⌊((mkRat 7323 2 : ℚ) - ((⌊(mkRat 7323 2 : ℚ)⌋ : ℤ) : ℚ)) * 1000⌋ :=
  ⟨by decide, c7_seconds_to_timecode.1 (mkRat 7323 2) (by decide)⟩

theorem isPrefixOf_cons_ne (c d : Char) (l1 l2 : PyStr) (h : ¬ c = d) :
    (c :: l1).isPrefixOf (d :: l2) = false := by
  simp [List.isPrefixOf, h]

theorem c10_no_http_marker (source : PyStr)
    (h : ((strData "youtu.be").isPrefixOf source ||
          (strData "www.youtube.com").isPrefixOf source) = true) :
    ((strData "http://").isPrefixOf source ||
      (strData "https://").isPrefixOf source) = false := by
  rcases Bool.or_eq_true_iff.mp h with h1 | h1
  · obtain ⟨t, rfl⟩ := List.isPrefixOf_iff_prefix.mp h1
    rw [show strData "youtu.be" ++ t = 'y' :: (strData "outu.be" ++ t) from rfl,
      show strData "http://" = 'h' :: strData "ttp://" from rfl,
      show strData "https://" = 'h' :: strData "ttps://" from rfl,
      isPrefixOf_cons_ne _ _ _ _ (by decide), isPrefixOf_cons_ne _ _ _ _ (by decide)]
    rfl
  · obtain ⟨t, rfl⟩ := List.isPrefixOf_iff_prefix.mp h1
    rw [show strData "www.youtube.com" ++ t = 'w' :: (strData "ww.youtube.com" ++ t) from rfl,
      show strData "http://" = 'h' :: strData "ttp://" from rfl,
      show strData "https://" = 'h' :: strData "ttps://" from rfl,
      isPrefixOf_cons_ne _ _ _ _ (by decide), isPrefixOf_cons_ne _ _ _ _ (by decide)]
    rfl

/-- C10: an input source beginning with `youtu.be` or `www.youtube.com` (and
therefore not with `http://` or `https://`) is classified as a URL by the
client — the transcribe and highlight operations both send `input_type`
`"url"` upstream — while the subtitle writer's default-filename rule, which
only tests the `http://`/`https://` prefixes, treats it as a local file and
derives the base name by the path-stem rule rather than the URL last-segment
rule. -/
theorem c10_youtube_prefix_classification (source : PyStr)
    (h : ((strData "youtu.be").isPrefixOf source ||
          (strData "www.youtube.com").isPrefixOf source) = true) :
    isUrl source = true ∧
    inputTypeOf source = "url" ∧
    ((strData "http://").isPrefixOf source ||
      (strData "https://").isPrefixOf source) = false ∧
    ∀ nowStamp, defaultFilenameBase nowStamp source = pyStem source := by
  have hurl : isUrl source = true := by
    unfold isUrl
    rcases Bool.or_eq_true_iff.mp h with h1 | h1 <;> simp [h1]
  have hnohttp := c10_no_http_marker source h
  refine ⟨hurl, ?_, hnohttp, fun nowStamp => ?_⟩
  · unfold inputTypeOf
    rw [if_pos hurl]
  · unfold defaultFilenameBase
    rw [if_neg (by rw [hnohttp]; exact Bool.false_ne_true)]

/-- Witness for C10 at the source `youtu.be/dQw4w9WgXcQ`. -/
theorem c10_youtube_prefix_classification_witness :
    ((strData "youtu.be").isPrefixOf (strData "youtu.be/dQw4w9WgXcQ") ||
      (strData "www.youtube.com").isPrefixOf (strData "youtu.be/dQw4w9WgXcQ")) = true ∧
    isUrl (strData "youtu.be/dQw4w9WgXcQ") = true ∧
    inputTypeOf (strData "youtu.be/dQw4w9WgXcQ") = "url" ∧
    defaultFilenameBase (strData "TS") (strData "youtu.be/dQw4w9WgXcQ") =
      pyStem (strData "youtu.be/dQw4w9WgXcQ") :=
  ⟨by decide,
    (c10_youtube_prefix_classification (strData "youtu.be/dQw4w9WgXcQ") (by decide)).1,
    (c10_youtube_prefix_classification (strData "youtu.be/dQw4w9WgXcQ") (by decide)).2.1,
    (c10_youtube_prefix_classification (strData "youtu.be/dQw4w9WgXcQ")
      (by decide)).2.2.2 (strData "TS")⟩

/-- A well-formed upstream transcription response with one utterance. -/
def demoRawResult : RDict :=
  [("content", JValue.jobj [("output", JValue.jobj [("utterances", JValue.jarr
    [JValue.jobj [("text", JValue.jstr (strData "hello")),
                  ("start", JValue.jint 0), ("end", JValue.jint 2)]])])])]

theorem flowRun_calls (transport : Except PyStr RDict) (source : PyStr) :
    (flowRun (Except.ok ()) transport (inputTypeOf source)).2 = 1 := by
  unfold inputTypeOf flowRun
  by_cases hu : isUrl source = true
  · rw [if_pos hu, if_neg (by decide : ¬ ("url" : String) = "file"), if_pos rfl]
    cases transport <;> rfl
  · rw [if_neg hu, if_pos rfl]
    cases transport <;> rfl

theorem flowRun_ok (raw : RDict) (source : PyStr) :
    (flowRun (Except.ok ()) (Except.ok raw) (inputTypeOf source)).1 = Except.ok raw := by
  unfold inputTypeOf flowRun
  by_cases hu : isUrl source = true
  · rw [if_pos hu, if_neg (by decide : ¬ ("url" : String) = "file"), if_pos rfl]
  · rw [if_neg hu, if_pos rfl]

theorem processVU_calls (fileOpen : Except PyStr Unit) (transport : Except PyStr RDict)
    (source : PyStr) (format : String) :
    (processVoiceUnderstanding fileOpen transport source format).2 =
      (flowRun fileOpen transport (inputTypeOf source)).2 := by
  rcases hr : flowRun fileOpen transport (inputTypeOf source) with ⟨r1, n⟩
  unfold processVoiceUnderstanding
  rw [hr]
  cases r1 <;> rfl

theorem processVH_calls (fileOpen : Except PyStr Unit) (transport : Except PyStr RDict)
    (source : PyStr) (keywords : List PyStr) (format : String) :
    (processVoiceHighlighting fileOpen transport source keywords format).2 =
      (flowRun fileOpen transport (inputTypeOf source)).2 := by
  rcases hr : flowRun fileOpen transport (inputTypeOf source) with ⟨r1, n⟩
  unfold processVoiceHighlighting
  rw [hr]
  cases r1 <;> rfl

theorem formatVu_unknown (raw : RDict) (format : String)
    (h1 : ¬ format = "json") (h2 : ¬ format = "text") (h3 : ¬ format = "srt") :
    formatVuResponse raw format = raw := by
  unfold formatVuResponse
  rw [if_neg h1, if_neg h2, if_neg h3]

/-- C3 (counterexample): a request with the unsupported output format `bogus`
is not rejected before I/O: the upstream HTTP POST is still issued (call count
one), and the operation returns the raw result unchanged instead of a
structured error. -/
theorem c3_unsupported_format_still_calls_http :
    (processVoiceUnderstanding (Except.ok ()) (Except.ok demoRawResult)
      (strData "https://example.com/a.mp4") "bogus").2 = 1 ∧
    (processVoiceUnderstanding (Except.ok ()) (Except.ok demoRawResult)
      (strData "https://example.com/a.mp4") "bogus").1 = Except.ok demoRawResult :=
  ⟨rfl, rfl⟩

/-- C3 (amended): output-format values are never validated and never abort the
operation: for every request whose input file (if any) opens, the transcribe
and highlight operations issue exactly one upstream HTTP POST whatever the
format value is, and a format outside the supported set falls back to
returning the upstream result unchanged (identity), producing no error. -/
theorem c3_format_never_rejected :
    ∀ (transport : Except PyStr RDict) (source : PyStr) (keywords : List PyStr)
      (format : String),
      (processVoiceUnderstanding (Except.ok ()) transport source format).2 = 1 ∧
      (processVoiceHighlighting (Except.ok ()) transport source keywords format).2 = 1 ∧
      (¬ format = "json" → ¬ format = "text" → ¬ format = "srt" →
        ∀ raw, transport = Except.ok raw →
          (processVoiceUnderstanding (Except.ok ()) transport source format).1 =
            Except.ok raw) := by
  intro transport source keywords format
  refine ⟨?_, ?_, ?_⟩
  · rw [processVU_calls]
    exact flowRun_calls transport source
  · rw [processVH_calls]
    exact flowRun_calls transport source
  · intro h1 h2 h3 raw hraw
    subst hraw
    rcases hr : flowRun (Except.ok ()) (Except.ok raw) (inputTypeOf source) with ⟨r1, n⟩
    unfold processVoiceUnderstanding
    rw [hr]
    have hok : r1 = Except.ok raw := by
      have := flowRun_ok raw source
      rw [hr] at this
      exact this
    subst hok
    show Except.ok (formatVuResponse raw format) = Except.ok raw
    rw [formatVu_unknown raw format h1 h2 h3]

/-- Witness for C3 (amended) at the format `bogus`. -/
theorem c3_format_never_rejected_witness :
    ¬ ("bogus" : String) = "json" ∧
    (processVoiceUnderstanding (Except.ok ()) (Except.ok demoRawResult)
      (strData "u.mp4") "bogus").2 = 1 ∧
    (processVoiceUnderstanding (Except.ok ()) (Except.ok demoRawResult)
      (strData "u.mp4") "bogus").1 = Except.ok demoRawResult :=
  ⟨by decide,
    (c3_format_never_rejected (Except.ok demoRawResult)
      (strData "u.mp4") [] "bogus").1,
    (c3_format_never_rejected (Except.ok demoRawResult)
      (strData "u.mp4") [] "bogus").2.2 (by decide) (by decide) (by decide)
      demoRawResult rfl⟩

/-- C4: the three tool operations are total functions of the environment
outcomes — no exception reaches the host.  Each returns either the formatted
client result or, on any internal failure (upstream call failure, directory
creation failure, file write failure), the corresponding structured error
payload carrying `status: "error"`, a descriptive message with the source
function's prefix, and the original input source echoed back. -/
theorem c4_structured_error_payloads :
    ∀ (fileOpen : Except PyStr Unit) (transport : Except PyStr RDict) (source : PyStr)
      (keywords : List PyStr) (format : String) (cwd nowStamp : PyStr)
      (mkdirO writeO : Except PyStr Unit) (outputPath : Option PyStr),
      ((∃ r, (processVoiceUnderstanding fileOpen transport source format).1 = Except.ok r ∧
          audionVuProcess fileOpen transport source format = r) ∨
        (∃ e, (processVoiceUnderstanding fileOpen transport source format).1 = Except.error e ∧
          audionVuProcess fileOpen transport source format = vuErrorPayload source e)) ∧
      ((∃ r, (processVoiceHighlighting fileOpen transport source keywords format).1 =
            Except.ok r ∧
          audionVhProcess fileOpen transport source keywords format = r) ∨
        (∃ e, (processVoiceHighlighting fileOpen transport source keywords format).1 =
            Except.error e ∧
          audionVhProcess fileOpen transport source keywords format =
            vhErrorPayload source keywords e)) ∧
      (∀ e, rdictGet (vuErrorPayload source e) "status" = JValue.jstr (strData "error") ∧
        rdictGet (vuErrorPayload source e) "source" = JValue.jstr source ∧
        rdictGet (vuErrorPayload source e) "message" =
          JValue.jstr (strData "Failed to process voice understanding: " ++ e) ∧
        rdictGet (vhErrorPayload source keywords e) "status" = JValue.jstr (strData "error") ∧
        rdictGet (vhErrorPayload source keywords e) "source" = JValue.jstr source ∧
        rdictGet (subtitleErrorPayload source e) "status" = JValue.jstr (strData "error") ∧
        rdictGet (subtitleErrorPayload source e) "source" = JValue.jstr source ∧
        rdictGet (subtitleErrorPayload source e) "message" =
          JValue.jstr (strData "Failed to generate subtitle file: " ++ e)) ∧
      (((processVoiceUnderstanding fileOpen transport source format).1.isOk = false ∨
          mkdirO.isOk = false ∨ writeO.isOk = false) →
        ∃ e, (audionSubtitleDownload cwd nowStamp fileOpen transport mkdirO writeO
            source outputPath format).1 = subtitleErrorPayload source e) := by
  intro fileOpen transport source keywords format cwd nowStamp mkdirO writeO outputPath
  refine ⟨?_, ?_, fun e => ⟨rfl, rfl, rfl, rfl, rfl, rfl, rfl, rfl⟩, ?_⟩
  · cases hvu : (processVoiceUnderstanding fileOpen transport source format).1 with
    | ok r =>
      left
      refine ⟨r, rfl, ?_⟩
      unfold audionVuProcess
      rw [hvu]
    | error e =>
      right
      refine ⟨e, rfl, ?_⟩
      unfold audionVuProcess
      rw [hvu]
  · cases hvh : (processVoiceHighlighting fileOpen transport source keywords format).1 with
    | ok r =>
      left
      refine ⟨r, rfl, ?_⟩
      unfold audionVhProcess
      rw [hvh]
    | error e =>
      right
      refine ⟨e, rfl, ?_⟩
      unfold audionVhProcess
      rw [hvh]
  · intro hfail
    unfold audionSubtitleDownload
    cases hvu : (processVoiceUnderstanding fileOpen transport source format).1 with
    | error e => exact ⟨e, rfl⟩
    | ok r =>
      cases hmk : mkdirO with
      | error e => exact ⟨e, rfl⟩
      | ok u =>
        cases hwr : writeO with
        | error e => exact ⟨e, rfl⟩
        | ok v =>
          exfalso
          rcases hfail with h | h | h
          · rw [hvu] at h
            exact Bool.noConfusion h
          · rw [hmk] at h
            exact Bool.noConfusion h
          · rw [hwr] at h
            exact Bool.noConfusion h

/-- Witness for C4: a failing upstream transport yields the structured error
payload from every operation. -/
theorem c4_structured_error_payloads_witness :
    (processVoiceUnderstanding (Except.ok ()) (Except.error (strData "boom"))
      (strData "s.mp4") "srt").1.isOk = false ∧
    (∃ e, (audionSubtitleDownload (strData "/w") (strData "TS") (Except.ok ())
        (Except.error (strData "boom")) (Except.ok ()) (Except.ok ())
        (strData "s.mp4") none "srt").1 = subtitleErrorPayload (strData "s.mp4") e) ∧
    audionVuProcess (Except.ok ()) (Except.error (strData "boom")) (strData "s.mp4") "srt" =
      vuErrorPayload (strData "s.mp4") (strData "Failed to call Audion API: boom") :=
  ⟨rfl,
    (c4_structured_error_payloads (Except.ok ()) (Except.error (strData "boom"))
      (strData "s.mp4") [] "srt" (strData "/w") (strData "TS") (Except.ok ())
      (Except.ok ()) none).2.2.2 (Or.inl rfl),
    rfl⟩

/-- C1 (code bug): the client formatter only knows the formats `json`, `text`
and `srt`, so for the subtitle formats `vtt` and `txt` it returns the raw
upstream result, which carries no `srt_content` or `transcript` key; the
server's VTT/TXT selection branches are therefore unreachable and the file
receives the indent-2 JSON dump of the raw result instead of the WEBVTT-
prefixed SRT text (for `vtt`) or the flattened transcript (for `txt`).  Only
the `srt` branch behaves as the claim states. -/
theorem c1_vtt_txt_write_raw_json_dump :
    (audionSubtitleDownload (strData "/work") (strData "TS") (Except.ok ())
        (Except.ok demoRawResult) (Except.ok ()) (Except.ok ())
        (strData "a.mp4") none "vtt").2 =
      some (strData "subtitles/a.vtt", jsonDumpsDict demoRawResult) ∧
    jsonDumpsDict demoRawResult ≠
      strData "WEBVTT\n\n" ++
        pyReplace (jStrVal (rdictGet (formatVuResponse demoRawResult "srt") "srt_content"))
          (strData ",") (strData ".") ∧
    (audionSubtitleDownload (strData "/work") (strData "TS") (Except.ok ())
        (Except.ok demoRawResult) (Except.ok ()) (Except.ok ())
        (strData "a.mp4") none "txt").2 =
      some (strData "subtitles/a.txt", jsonDumpsDict demoRawResult) ∧
    jsonDumpsDict demoRawResult ≠
      jStrVal (rdictGet (formatVuResponse demoRawResult "text") "transcript") ∧
    (audionSubtitleDownload (strData "/work") (strData "TS") (Except.ok ())
        (Except.ok demoRawResult) (Except.ok ()) (Except.ok ())
        (strData "a.mp4") none "srt").2 =
      some (strData "subtitles/a.srt",
        jStrVal (rdictGet (formatVuResponse demoRawResult "srt") "srt_content")) :=
  ⟨rfl, by decide, rfl, by decide, rfl⟩

theorem utf8Len_ascii : ∀ (s : PyStr), s.all (fun c => c.toNat < 128) = true →
    utf8Len s = s.length := by
  intro s
  induction s with
  | nil => intro _; rfl
  | cons c rest ih =>
    intro h
    rw [List.all_cons, Bool.and_eq_true] at h
    have hc : utf8CharLen c = 1 := by
      unfold utf8CharLen
      rw [if_pos (of_decide_eq_true h.1)]
    have hrest := ih h.2
    simp only [utf8Len, List.map_cons, List.sum_cons, List.length_cons, hc]
    simp only [utf8Len] at hrest
    rw [hrest]
    exact Nat.add_comm 1 rest.length

/-- C8 (amended): a successful subtitle download reports the absolute output
path, but its `size` field is the character count (Python `len`) of the
content persisted, not its byte length; this equals the number of UTF-8 bytes
written exactly when the content is ASCII, and undercounts otherwise. -/
theorem c8_size_reports_char_count :
    ∀ (cwd nowStamp : PyStr) (fileOpen : Except PyStr Unit)
      (transport : Except PyStr RDict) (mkdirO writeO : Except PyStr Unit)
      (source : PyStr) (outputPath : Option PyStr) (format : String)
      (path content : PyStr),
      (audionSubtitleDownload cwd nowStamp fileOpen transport mkdirO writeO
          source outputPath format).2 = some (path, content) →
        rdictGet (audionSubtitleDownload cwd nowStamp fileOpen transport mkdirO writeO
            source outputPath format).1 "output_path" =
          JValue.jstr (pyAbsolute cwd path) ∧
        rdictGet (audionSubtitleDownload cwd nowStamp fileOpen transport mkdirO writeO
            source outputPath format).1 "size" =
          JValue.jint (content.length : ℤ) ∧
        (content.all (fun c => c.toNat < 128) = true →
          utf8Len content = content.length) := by
  intro cwd nowStamp fileOpen transport mkdirO writeO source outputPath format path content
  unfold audionSubtitleDownload
  cases mkdirO with
  | error e =>
    intro h
    cases hvu : (processVoiceUnderstanding fileOpen transport source format).1 with
    | error e2 => rw [hvu] at h; exact absurd h (by simp)
    | ok result => rw [hvu] at h; exact absurd h (by simp)
  | ok u =>
    cases writeO with
    | error e =>
      intro h
      cases hvu : (processVoiceUnderstanding fileOpen transport source format).1 with
      | error e2 => rw [hvu] at h; exact absurd h (by simp)
      | ok result => rw [hvu] at h; exact absurd h (by simp)
    | ok v =>
      cases hvu : (processVoiceUnderstanding fileOpen transport source format).1 with
      | error e2 => intro h; exact absurd h (by simp)
      | ok result =>
        intro h
        have h2 : some (resolveSubtitlePath nowStamp source outputPath format,
            selectSubtitleContent format result) = some (path, content) := h
        have h3 := Option.some.inj h2
        have hp : resolveSubtitlePath nowStamp source outputPath format = path :=
          congrArg Prod.fst h3
        have hc : selectSubtitleContent format result = content :=
          congrArg Prod.snd h3
        subst hp
        subst hc
        exact ⟨rfl, rfl, utf8Len_ascii _⟩

/-- A transcription result whose utterance text is Korean (two characters,
three UTF-8 bytes each). -/
def demoKrResult : RDict :=
  [("content", JValue.jobj [("output", JValue.jobj [("utterances", JValue.jarr
    [JValue.jobj [("text", JValue.jstr (strData "안녕")),
                  ("start", JValue.jint 0), ("end", JValue.jint 1)]])])])]

/-- C8 (counterexample): for a subtitle whose content contains two Korean
characters, the persisted content is 34 characters but 38 UTF-8 bytes; the
success record reports `size` 34, which is not the byte length written. -/
theorem c8_size_not_byte_length :
    (audionSubtitleDownload (strData "/work") (strData "TS") (Except.ok ())
        (Except.ok demoKrResult) (Except.ok ()) (Except.ok ())
        (strData "v.mp4") none "srt").2 =
      some (strData "subtitles/v.srt", strData "1\n00:00:00,000 --> 00:00:01,000\n안녕") ∧
    rdictGet (audionSubtitleDownload (strData "/work") (strData "TS") (Except.ok ())
        (Except.ok demoKrResult) (Except.ok ()) (Except.ok ())
        (strData "v.mp4") none "srt").1 "size" = JValue.jint 34 ∧
    utf8Len (strData "1\n00:00:00,000 --> 00:00:01,000\n안녕") = 38 ∧
    rdictGet (audionSubtitleDownload (strData "/work") (strData "TS") (Except.ok ())
        (Except.ok demoKrResult) (Except.ok ()) (Except.ok ())
        (strData "v.mp4") none "srt").1 "size" ≠
      JValue.jint ((utf8Len (strData "1\n00:00:00,000 --> 00:00:01,000\n안녕") : ℕ) : ℤ) :=
  ⟨rfl, rfl, by decide, fun h => by
    have h2 := JValue.jint.inj h
    exact absurd h2 (by decide)⟩

/-- Witness for C8 at an ASCII subtitle download. -/
theorem c8_size_reports_char_count_witness :
    (audionSubtitleDownload (strData "/work") (strData "TS") (Except.ok ())
        (Except.ok demoRawResult) (Except.ok ()) (Except.ok ())
        (strData "a.mp4") none "srt").2 =
      some (strData "subtitles/a.srt", strData "1\n00:00:00,000 --> 00:00:02,000\nhello") ∧
    rdictGet (audionSubtitleDownload (strData "/work") (strData "TS") (Except.ok ())
        (Except.ok demoRawResult) (Except.ok ()) (Except.ok ())
        (strData "a.mp4") none "srt").1 "size" = JValue.jint 37 ∧
    rdictGet (audionSubtitleDownload (strData "/work") (strData "TS") (Except.ok ())
        (Except.ok demoRawResult) (Except.ok ()) (Except.ok ())
        (strData "a.mp4") none "srt").1 "output_path" =
      JValue.jstr (strData "/work/subtitles/a.srt") ∧
    utf8Len (strData "1\n00:00:00,000 --> 00:00:02,000\nhello") = 37 :=
  ⟨rfl,
    (c8_size_reports_char_count (strData "/work") (strData "TS") (Except.ok ())
      (Except.ok demoRawResult) (Except.ok ()) (Except.ok ()) (strData "a.mp4") none "srt"
      (strData "subtitles/a.srt") (strData "1\n00:00:00,000 --> 00:00:02,000\nhello")
      rfl).2.1,
    (c8_size_reports_char_count (strData "/work") (strData "TS") (Except.ok ())
      (Except.ok demoRawResult) (Except.ok ()) (Except.ok ()) (strData "a.mp4") none "srt"
      (strData "subtitles/a.srt") (strData "1\n00:00:00,000 --> 00:00:02,000\nhello")
      rfl).1,
    (c8_size_reports_char_count (strData "/work") (strData "TS") (Except.ok ())
      (Except.ok demoRawResult) (Except.ok ()) (Except.ok ()) (strData "a.mp4") none "srt"
      (strData "subtitles/a.srt") (strData "1\n00:00:00,000 --> 00:00:02,000\nhello")
      rfl).2.2 (by decide)⟩
